import Mathlib

/-!
Verification of the portfolio-assistant API service (`main.py`) against its
specification.  The service is a thin HTTP facade over a hosted assistant
runtime; this file embeds its pure request-handling logic:

* the citation-marker cleaning `re.sub(r'【.*?】', '', text)` used on every
  streamed text delta (lines 157 and 187 of `main.py`);
* the `/ask` handler: `ASSISTANT_ID` falsy-check, optional thread creation,
  message append, and the SSE stream generator with its tool-call branch
  (lines 128-198);
* the `/consulta-atlas` local-dataset handler and `gerar_resposta`
  (lines 68-118);
* the startup environment checks (lines 18-23, 68-72).

External effects (the upstream client, the JSON file) are modelled as
explicit parameters; each handler additionally returns the list of upstream
API calls it performs, so that "never calls upstream" properties are
directly statable.
-/

set_option autoImplicit false

/-! ### Citation-marker stripping

`re.sub(r'【.*?】', '', text)`: repeatedly delete the leftmost non-greedy
match of `【.*?】`.  A match starts at a `'【'` and ends at the nearest
following `'】'`, with `.` not matching a newline.  `findClose l` scans `l`
for the closing `'】'`, returning the remainder after it, and fails if a
newline (or the end of the string) is reached first. -/
def findClose : List Char → Option (List Char)
  | [] => none
  | c :: rest =>
    if c = '】' then some rest
    else if c = '\n' then none
    else findClose rest

/-- Fuel-indexed scanner behind `stripCitations`; the fuel is an upper bound
on the length of the remaining input, so `stripCitations` always supplies
enough of it. -/
def stripAux : Nat → List Char → List Char
  | 0, l => l
  | _ + 1, [] => []
  | n + 1, c :: rest =>
    if c = '【' then
      match findClose rest with
      | some rest' => stripAux n rest'
      | none => c :: stripAux n rest
    else c :: stripAux n rest

/-- The cleaning applied to every streamed text chunk:
`re.sub(r'【.*?】', '', text)` (main.py lines 157 and 187). -/
def stripCitations (l : List Char) : List Char := stripAux l.length l

/-- `hasMatch l` decides whether `l` still contains a substring matched by
the regex `【.*?】` (an `'【'` from which a `'】'` is reachable without
crossing a newline). -/
def hasMatch : List Char → Bool
  | [] => false
  | c :: rest => ((c == '【') && (findClose rest).isSome) || hasMatch rest

/-! ### Streaming `/ask` model

Types for the upstream event stream consumed by `stream_generator`
(main.py lines 144-189) and the server-sent events it yields. -/
/-- `call.function` of an upstream tool call: a name and a JSON-encoded
argument string. -/
structure ToolFunction where
  name : String
  arguments : String
deriving DecidableEq

/-- One entry of `event.data.required_action.submit_tool_outputs.tool_calls`. -/
structure ToolCall where
  id : String
  function : ToolFunction
deriving DecidableEq

/-- One entry of the `tool_outputs` list submitted back upstream. -/
structure ToolOutput where
  tool_call_id : String
  output : String
deriving DecidableEq

/-- `json.dumps({"success": True})`, the synthesized acknowledgment
(main.py line 174). -/
def successOutput : String := "\x7b\"success\": true\x7d"

/-- Events of the upstream run stream that the generator inspects.  A
`thread.message.delta` carries `event.data.delta.content`, a (possibly
empty) list of parts each with a text value; the code reads part 0.
`thread.run.requires_action` carries the run id and the tool calls.  Every
other upstream event type is ignored by the generator. -/
inductive UpstreamEvent where
  | messageDelta (content : List (List Char))
  | requiresAction (runId : String) (toolCalls : List ToolCall)
  | otherEvent
deriving DecidableEq

/-- The discriminated SSE payloads emitted by the generator:
`{"event": "thread_id"|"text_chunk"|"tool_call", "data": ...}`. -/
inductive SSEEvent where
  | threadId (tid : String)
  | textChunk (text : List Char)
  | toolCall (name : String) (arguments : String)
deriving DecidableEq

/-- Upstream API calls a handler performs, recorded as a trace. -/
inductive ApiCall where
  | createThread
  | appendMessage (thread_id : String) (content : String)
  | runStream (thread_id : String) (assistant_id : String)
  | submitToolOutputs (thread_id : String) (run_id : String) (outputs : List ToolOutput)
  | chatCompletion (prompt : String)
deriving DecidableEq

/-- Handling of one `thread.message.delta` (main.py lines 154-159 and
184-189): take part 0 of the delta content if any, clean it, and emit a
`text_chunk` unless the cleaned text is empty. -/
def processDelta (content : List (List Char)) : List SSEEvent :=
  match content with
  | [] => []
  | chunk :: _ =>
    let cleaned := stripCitations chunk
    if cleaned.isEmpty then [] else [SSEEvent.textChunk cleaned]

/-- The inner `for call in tool_calls` loop (main.py lines 168-175): for
each call named `"navigateToSection"`, emit a `tool_call` SSE event with
its arguments and append a success acknowledgment; every other call is
skipped. -/
def toolLoop : List ToolCall → List SSEEvent × List ToolOutput
  | [] => ([], [])
  | call :: rest =>
    if call.function.name == "navigateToSection" then
      (SSEEvent.toolCall "navigateToSection" call.function.arguments :: (toolLoop rest).1,
       ⟨call.id, successOutput⟩ :: (toolLoop rest).2)
    else toolLoop rest

/-- The tool calls of a batch that the code reacts to: those whose
function name is `"navigateToSection"`. -/
def navCalls (calls : List ToolCall) : List ToolCall :=
  calls.filter (fun c => c.function.name == "navigateToSection")

/-- The synthesized `tool_outputs` for a batch: one success acknowledgment
per reacted-to call, carrying its `tool_call_id`. -/
def navOutputs (calls : List ToolCall) : List ToolOutput :=
  (navCalls calls).map (fun c => ⟨c.id, successOutput⟩)

/-- The loop over the resumed stream after submitting tool outputs
(main.py lines 183-189): only `thread.message.delta` events are relayed. -/
def processFollowEvent : UpstreamEvent → List SSEEvent
  | UpstreamEvent.messageDelta content => processDelta content
  | _ => []

/-- Handling of one event of the main run stream (main.py lines 153-189).
`follow runId outs` models the event sequence produced by
`submit_tool_outputs_stream`; it is consulted only when `tool_outputs` is
non-empty. -/
def processMainEvent (tid : String) (follow : String → List ToolOutput → List UpstreamEvent) :
    UpstreamEvent → List SSEEvent × List ApiCall
  | UpstreamEvent.messageDelta content => (processDelta content, [])
  | UpstreamEvent.requiresAction runId calls =>
    if (toolLoop calls).2.isEmpty then ((toolLoop calls).1, [])
    else
      ((toolLoop calls).1 ++ (follow runId (toolLoop calls).2).flatMap processFollowEvent,
       [ApiCall.submitToolOutputs tid runId (toolLoop calls).2])
  | UpstreamEvent.otherEvent => ([], [])

/-- The `for event in stream` loop over the main run stream. -/
def runStreamEvents (tid : String) (follow : String → List ToolOutput → List UpstreamEvent) :
    List UpstreamEvent → List SSEEvent × List ApiCall
  | [] => ([], [])
  | e :: rest =>
    ((processMainEvent tid follow e).1 ++ (runStreamEvents tid follow rest).1,
     (processMainEvent tid follow e).2 ++ (runStreamEvents tid follow rest).2)

/-- `stream_generator` (main.py lines 144-189): yields the `thread_id`
event first, then opens the run stream (`runs.stream`, recorded as the
first API call) and relays its events.  Returns the SSE events in order
and the upstream API calls made. -/
def stream_generator (tid assistant_id : String)
    (follow : String → List ToolOutput → List UpstreamEvent)
    (events : List UpstreamEvent) : List SSEEvent × List ApiCall :=
  (SSEEvent.threadId tid :: (runStreamEvents tid follow events).1,
   ApiCall.runStream tid assistant_id :: (runStreamEvents tid follow events).2)

/-! ### Environment, startup, and the `/ask` handler -/
/-- Python truthiness test `not value` for an `os.getenv` result: true when
the variable is unset or the empty string. -/
def pyFalsy : Option String → Bool
  | none => true
  | some s => s.isEmpty

/-- The process environment: `OPENAI_API_KEY`, `ASSISTANT_ID`, and the
contents of `equipe.json` (`none` when the file is missing/unreadable). -/
structure Env where
  openai_api_key : Option String
  assistant_id : Option String
  equipe_file : Option String
deriving DecidableEq

/-- Process-wide values after a successful startup. -/
structure Config where
  openai_api_key : String
  assistant_id : Option String
  equipe_data : List (String × String)
deriving DecidableEq

/-- Loading of `equipe.json` (main.py lines 68-72): any read or parse
failure is swallowed and yields the empty dataset `{}`.  The dataset is
modelled as a flat key-value list; `parse` models `json.loads`. -/
def load_equipe_data (file : Option String)
    (parse : String → Option (List (String × String))) : List (String × String) :=
  match file with
  | none => []
  | some raw => (parse raw).getD []

/-- Module initialization (main.py lines 18-23 and 68-72): fatal
(`raise ValueError`) exactly when `OPENAI_API_KEY` is unset or empty;
`ASSISTANT_ID` is read but not validated, and the dataset load never
fails startup. -/
def startup (env : Env) (parse : String → Option (List (String × String))) : Option Config :=
  if pyFalsy env.openai_api_key then none
  else some ⟨env.openai_api_key.getD "", env.assistant_id, load_equipe_data env.equipe_file parse⟩

/-- The `/ask` request body (`AskRequest` pydantic model, main.py 55-60). -/
structure AskRequest where
  question : String
  thread_id : Option String
deriving DecidableEq

/-- Detail string of the 400 raised when `ASSISTANT_ID` is falsy. -/
def askAidMsg : String := "ASSISTANT_ID não definido no .env para usar /ask."

/-- Outcome of the synchronous part of `/ask`, before the stream runs. -/
inductive AskOutcome where
  | httpError (status : Nat) (detail : String)
  | streaming (thread_id : String)
deriving DecidableEq

/-- Synchronous part of `ask_assistant_streaming` (main.py lines 128-142):
reject with 400 when `ASSISTANT_ID` is falsy; otherwise create a thread
when `req.thread_id is None` (the new thread receives the upstream id
`newThreadId`), then append the question as a user message.  Returns the
outcome and the trace of upstream calls. -/
def ask_assistant_streaming (assistant_id : Option String) (newThreadId : String)
    (req : AskRequest) : AskOutcome × List ApiCall :=
  if pyFalsy assistant_id then (AskOutcome.httpError 400 askAidMsg, [])
  else
    match req.thread_id with
    | none =>
      (AskOutcome.streaming newThreadId,
       [ApiCall.createThread, ApiCall.appendMessage newThreadId req.question])
    | some t =>
      (AskOutcome.streaming t, [ApiCall.appendMessage t req.question])

/-- A full `/ask` response: either an HTTP error or the SSE stream body. -/
inductive AskResponse where
  | httpError (status : Nat) (detail : String)
  | sse (events : List SSEEvent)
deriving DecidableEq

/-- The `/ask` endpoint end to end: the synchronous setup followed by the
execution of the returned `StreamingResponse`'s generator against the
upstream events. -/
def ask_endpoint (assistant_id : Option String) (newThreadId : String) (req : AskRequest)
    (follow : String → List ToolOutput → List UpstreamEvent)
    (events : List UpstreamEvent) : AskResponse × List ApiCall :=
  match ask_assistant_streaming assistant_id newThreadId req with
  | (AskOutcome.httpError s d, calls) => (AskResponse.httpError s d, calls)
  | (AskOutcome.streaming tid, calls) =>
    (AskResponse.sse (stream_generator tid (assistant_id.getD "") follow events).1,
     calls ++ (stream_generator tid (assistant_id.getD "") follow events).2)

/-! ### Local mode: `gerar_resposta` and `/consulta-atlas` -/
/-- Detail of the `RuntimeError` raised on an empty dataset (main.py 79). -/
def equipeMissingMsg : String :=
  "equipe.json não encontrado ou vazio ao tentar responder localmente."

/-- `json.dumps(equipe_data, ensure_ascii=False, indent=2)` for the flat
key-value model of the dataset. -/
def dumpsEquipe (d : List (String × String)) : String :=
  match d with
  | [] => "\x7b\x7d"
  | _ =>
    "\x7b\n"
      ++ String.intercalate ",\n"
        (d.map (fun kv => "  \"" ++ kv.1 ++ "\": \"" ++ kv.2 ++ "\""))
      ++ "\n\x7d"

/-- The prompt built by `gerar_resposta` (main.py lines 81-91). -/
def contexto (data : List (String × String)) (pergunta : String) : String :=
  "Você é um assistente que conhece todos os membros da equipe Atlas.AI.\n"
    ++ "Abaixo estão os dados da equipe em formato JSON:\n\n"
    ++ dumpsEquipe data ++ "\n\n"
    ++ "Com base nisso, responda à pergunta do usuário. "
    ++ "Se for sobre quem tem experiência em algo ou quem é mais indicado para uma vaga, "
    ++ "diga o(s) nome(s) e justifique de forma breve e clara, explicando o porquê da escolha. "
    ++ "Sempre use informações reais do JSON. "
    ++ "Responda em português e de forma natural.\n\n"
    ++ "Pergunta: " ++ pergunta

/-- Exceptions escaping `gerar_resposta`: the `RuntimeError` for a missing
dataset, or an exception from the upstream completion call. -/
inductive LocalError where
  | runtime (msg : String)
  | upstream (msg : String)
deriving DecidableEq

/-- `gerar_resposta` (main.py lines 74-101): fail with `RuntimeError` when
the dataset is falsy (empty), otherwise issue one chat-completion call with
the rendered prompt.  `complete` models `client.chat.completions.create`
(its `Except.error` case an exception).  Returns the result and the trace
of upstream calls. -/
def gerar_resposta (data : List (String × String))
    (complete : String → Except String String) (pergunta : String) :
    Except LocalError String × List ApiCall :=
  if data.isEmpty then (Except.error (LocalError.runtime equipeMissingMsg), [])
  else
    match complete (contexto data pergunta) with
    | Except.ok ans => (Except.ok ans, [ApiCall.chatCompletion (contexto data pergunta)])
    | Except.error e =>
      (Except.error (LocalError.upstream e), [ApiCall.chatCompletion (contexto data pergunta)])

/-- A `/consulta-atlas` response. -/
inductive ConsultaResponse where
  | ok (answer : String) (mode : String)
  | httpError (status : Nat) (detail : String)
deriving DecidableEq

/-- The `/consulta-atlas` endpoint (main.py lines 111-118): success wraps
the answer with `mode: "local-json"`; a `RuntimeError` becomes a 400 with
its message; any other exception becomes a 500. -/
def consulta_atlas_local (data : List (String × String))
    (complete : String → Except String String) (pergunta : String) :
    ConsultaResponse × List ApiCall :=
  match gerar_resposta data complete pergunta with
  | (Except.ok ans, calls) => (ConsultaResponse.ok ans "local-json", calls)
  | (Except.error (LocalError.runtime m), calls) => (ConsultaResponse.httpError 400 m, calls)
  | (Except.error (LocalError.upstream m), calls) =>
    (ConsultaResponse.httpError 500 ("Falha ao gerar resposta local: " ++ m), calls)

theorem findClose_cons (c : Char) (rest : List Char) :
    findClose (c :: rest) =
      if c = '】' then some rest
      else if c = '\n' then none
      else findClose rest := rfl

theorem findClose_length : ∀ {l l' : List Char}, findClose l = some l' → l'.length < l.length := by
  intro l
  induction l with
  | nil => intro l' h; simp [findClose] at h
  | cons c rest ih =>
    intro l' h
    rw [findClose_cons] at h
    by_cases h1 : c = '】'
    · rw [if_pos h1] at h
      cases h
      simp [Nat.lt_succ_self]
    · rw [if_neg h1] at h
      by_cases h2 : c = '\n'
      · rw [if_pos h2] at h; cases h
      · rw [if_neg h2] at h
        exact Nat.lt_succ_of_lt (ih h)

theorem stripAux_nil : ∀ n : Nat, stripAux n [] = [] := by
  intro n; cases n <;> rfl

theorem stripAux_eq_of_le :
    ∀ (f1 : Nat) (l : List Char) (f2 : Nat),
      l.length ≤ f1 → l.length ≤ f2 → stripAux f1 l = stripAux f2 l := by
  intro f1
  induction f1 with
  | zero =>
    intro l f2 h1 _
    have hl : l = [] := List.eq_nil_of_length_eq_zero (Nat.le_zero.mp h1)
    subst hl
    rw [stripAux_nil, stripAux_nil]
  | succ n ih =>
    intro l f2 h1 h2
    cases l with
    | nil => rw [stripAux_nil, stripAux_nil]
    | cons c rest =>
      cases f2 with
      | zero => simp at h2
      | succ m =>
        have hr : rest.length ≤ n := Nat.le_of_succ_le_succ (by simpa using h1)
        have hm : rest.length ≤ m := Nat.le_of_succ_le_succ (by simpa using h2)
        show stripAux (n + 1) (c :: rest) = stripAux (m + 1) (c :: rest)
        simp only [stripAux]
        by_cases hc : c = '【'
        · rw [if_pos hc, if_pos hc]
          cases hfc : findClose rest with
          | some rest' =>
            have hlt := findClose_length hfc
            exact ih rest' m (Nat.le_trans (Nat.le_of_lt hlt) hr)
              (Nat.le_trans (Nat.le_of_lt hlt) hm)
          | none =>
            rw [ih rest m hr hm]
        · rw [if_neg hc, if_neg hc, ih rest m hr hm]

theorem stripCitations_nil : stripCitations [] = [] := rfl

theorem stripCitations_cons_of_ne (c : Char) (rest : List Char) (h : c ≠ '【') :
    stripCitations (c :: rest) = c :: stripCitations rest := by
  show stripAux (rest.length + 1) (c :: rest) = c :: stripCitations rest
  simp only [stripAux, if_neg h]
  rfl

theorem stripCitations_open_some (rest rest' : List Char) (h : findClose rest = some rest') :
    stripCitations ('【' :: rest) = stripCitations rest' := by
  show stripAux (rest.length + 1) ('【' :: rest) = stripCitations rest'
  simp only [stripAux, if_pos rfl, h]
  exact stripAux_eq_of_le rest.length rest' rest'.length
    (Nat.le_of_lt (findClose_length h)) (Nat.le_refl _)

theorem stripCitations_open_none (rest : List Char) (h : findClose rest = none) :
    stripCitations ('【' :: rest) = '【' :: stripCitations rest := by
  show stripAux (rest.length + 1) ('【' :: rest) = '【' :: stripCitations rest
  simp only [stripAux, if_pos rfl, h]
  rfl

/-- Induction principle following the recursion pattern of `stripCitations`. -/
theorem stripRec (P : List Char → Prop) (h1 : P [])
    (h2 : ∀ c rest, c ≠ '【' → P rest → P (c :: rest))
    (h3 : ∀ rest rest', findClose rest = some rest' → P rest' → P rest → P ('【' :: rest))
    (h4 : ∀ rest, findClose rest = none → P rest → P ('【' :: rest)) :
    ∀ l, P l := by
  have key : ∀ (n : Nat) (l : List Char), l.length ≤ n → P l := by
    intro n
    induction n with
    | zero =>
      intro l h
      have hl : l = [] := List.eq_nil_of_length_eq_zero (Nat.le_zero.mp h)
      subst hl; exact h1
    | succ n ih =>
      intro l h
      cases l with
      | nil => exact h1
      | cons c rest =>
        have hr : rest.length ≤ n := Nat.le_of_succ_le_succ (by simpa using h)
        by_cases hc : c = '【'
        · subst hc
          cases hfc : findClose rest with
          | some rest' =>
            exact h3 rest rest' hfc
              (ih rest' (Nat.le_trans (Nat.le_of_lt (findClose_length hfc)) hr))
              (ih rest hr)
          | none => exact h4 rest hfc (ih rest hr)
        · exact h2 c rest hc (ih rest hr)
  intro l
  exact key l.length l (Nat.le_refl _)

theorem hasMatch_cons (c : Char) (rest : List Char) :
    hasMatch (c :: rest) = (((c == '【') && (findClose rest).isSome) || hasMatch rest) := rfl

theorem stripCitations_of_hasMatch_eq_false :
    ∀ l, hasMatch l = false → stripCitations l = l := by
  refine stripRec (fun l => hasMatch l = false → stripCitations l = l) ?_ ?_ ?_ ?_
  · intro _; rfl
  · intro c rest hc ih hm
    rw [hasMatch_cons, Bool.or_eq_false_iff] at hm
    rw [stripCitations_cons_of_ne c rest hc, ih hm.2]
  · intro rest rest' hfc _ _ hm
    rw [hasMatch_cons, hfc] at hm
    simp at hm
  · intro rest hfc ih hm
    rw [hasMatch_cons, hfc, Bool.or_eq_false_iff] at hm
    rw [stripCitations_open_none rest hfc, ih hm.2]

theorem findClose_stripCitations :
    ∀ l, findClose l = none → findClose (stripCitations l) = none := by
  refine stripRec (fun l => findClose l = none → findClose (stripCitations l) = none) ?_ ?_ ?_ ?_
  · intro _; rfl
  · intro c rest hc ih h
    rw [findClose_cons] at h
    by_cases h1 : c = '】'
    · rw [if_pos h1] at h; cases h
    · rw [if_neg h1] at h
      by_cases h2 : c = '\n'
      · rw [stripCitations_cons_of_ne c rest hc, findClose_cons, if_neg h1, if_pos h2]
      · rw [if_neg h2] at h
        rw [stripCitations_cons_of_ne c rest hc, findClose_cons, if_neg h1, if_neg h2]
        exact ih h
  · intro rest rest' hfc _ _ h
    rw [findClose_cons, if_neg (by decide), if_neg (by decide), hfc] at h
    cases h
  · intro rest hfc ih h
    rw [stripCitations_open_none rest hfc, findClose_cons,
      if_neg (by decide), if_neg (by decide)]
    exact ih hfc

theorem hasMatch_stripCitations : ∀ l, hasMatch (stripCitations l) = false := by
  refine stripRec (fun l => hasMatch (stripCitations l) = false) ?_ ?_ ?_ ?_
  · rfl
  · intro c rest hc ih
    rw [stripCitations_cons_of_ne c rest hc, hasMatch_cons]
    have hb : (c == '【') = false := by
      exact beq_eq_false_iff_ne.mpr hc
    rw [hb, Bool.false_and, Bool.false_or]
    exact ih
  · intro rest rest' hfc ih _
    rw [stripCitations_open_some rest rest' hfc]
    exact ih
  · intro rest hfc ih
    rw [stripCitations_open_none rest hfc, hasMatch_cons,
      findClose_stripCitations rest hfc]
    simpa using ih

theorem stripCitations_append_of_not_mem :
    ∀ (a rest : List Char), '【' ∉ a → stripCitations (a ++ rest) = a ++ stripCitations rest := by
  intro a
  induction a with
  | nil => intro rest _; rfl
  | cons c t ih =>
    intro rest h
    have hc : c ≠ '【' := fun hc => h (hc ▸ List.mem_cons_self c t)
    have ht : '【' ∉ t := fun hm => h (List.mem_cons_of_mem c hm)
    rw [List.cons_append, stripCitations_cons_of_ne c (t ++ rest) hc, ih rest ht,
      List.cons_append]

theorem findClose_marker (inner b : List Char) (h1 : '】' ∉ inner) (h2 : '\n' ∉ inner) :
    findClose (inner ++ '】' :: b) = some b := by
  induction inner with
  | nil => rw [List.nil_append, findClose_cons, if_pos rfl]
  | cons c t ih =>
    have hc1 : c ≠ '】' := fun hc => h1 (hc ▸ List.mem_cons_self c t)
    have hc2 : c ≠ '\n' := fun hc => h2 (hc ▸ List.mem_cons_self c t)
    rw [List.cons_append, findClose_cons, if_neg hc1, if_neg hc2]
    exact ih (fun hm => h1 (List.mem_cons_of_mem c hm))
      (fun hm => h2 (List.mem_cons_of_mem c hm))

theorem toolLoop_eq (calls : List ToolCall) :
    toolLoop calls =
      ((navCalls calls).map (fun c => SSEEvent.toolCall "navigateToSection" c.function.arguments),
       navOutputs calls) := by
  induction calls with
  | nil => rfl
  | cons call rest ih =>
    by_cases h : (call.function.name == "navigateToSection") = true
    · have hnav : navCalls (call :: rest) = call :: navCalls rest := by
        simp [navCalls, List.filter_cons, h]
      simp [toolLoop, h, hnav, navOutputs, ih]
    · have hnav : navCalls (call :: rest) = navCalls rest := by
        simp [navCalls, List.filter_cons, h]
      simp [toolLoop, h, hnav, navOutputs, ih]

theorem processMainEvent_requiresAction_fst (tid : String)
    (follow : String → List ToolOutput → List UpstreamEvent) (runId : String)
    (calls : List ToolCall) :
    (processMainEvent tid follow (UpstreamEvent.requiresAction runId calls)).1 =
      if (toolLoop calls).2.isEmpty then (toolLoop calls).1
      else (toolLoop calls).1 ++ (follow runId (toolLoop calls).2).flatMap processFollowEvent := by
  by_cases h : (toolLoop calls).2.isEmpty = true
  · simp only [processMainEvent, if_pos h]
  · simp only [processMainEvent, if_neg h]

theorem processMainEvent_requiresAction_snd (tid : String)
    (follow : String → List ToolOutput → List UpstreamEvent) (runId : String)
    (calls : List ToolCall) :
    (processMainEvent tid follow (UpstreamEvent.requiresAction runId calls)).2 =
      if (toolLoop calls).2.isEmpty then []
      else [ApiCall.submitToolOutputs tid runId (toolLoop calls).2] := by
  by_cases h : (toolLoop calls).2.isEmpty = true
  · simp only [processMainEvent, if_pos h]
  · simp only [processMainEvent, if_neg h]

theorem textChunk_processDelta {content : List (List Char)} {s : List Char}
    (h : SSEEvent.textChunk s ∈ processDelta content) : s ≠ [] := by
  cases content with
  | nil => simp [processDelta] at h
  | cons chunk t =>
    simp only [processDelta] at h
    by_cases he : (stripCitations chunk).isEmpty = true
    · rw [if_pos he] at h
      simp at h
    · rw [if_neg he] at h
      simp only [List.mem_singleton, SSEEvent.textChunk.injEq] at h
      subst h
      simpa [List.isEmpty_iff] using he

theorem textChunk_not_mem_toolLoop (calls : List ToolCall) (s : List Char) :
    SSEEvent.textChunk s ∉ (toolLoop calls).1 := by
  rw [toolLoop_eq]
  simp

theorem textChunk_processFollowEvent {ev : UpstreamEvent} {s : List Char}
    (h : SSEEvent.textChunk s ∈ processFollowEvent ev) : s ≠ [] := by
  cases ev with
  | messageDelta content => exact textChunk_processDelta h
  | requiresAction runId calls => simp [processFollowEvent] at h
  | otherEvent => simp [processFollowEvent] at h

theorem textChunk_processMainEvent {tid : String}
    {follow : String → List ToolOutput → List UpstreamEvent} {ev : UpstreamEvent}
    {s : List Char} (h : SSEEvent.textChunk s ∈ (processMainEvent tid follow ev).1) :
    s ≠ [] := by
  cases ev with
  | messageDelta content => exact textChunk_processDelta h
  | requiresAction runId calls =>
    rw [processMainEvent_requiresAction_fst] at h
    by_cases he : (toolLoop calls).2.isEmpty = true
    · rw [if_pos he] at h
      exact absurd h (textChunk_not_mem_toolLoop calls s)
    · rw [if_neg he] at h
      rcases List.mem_append.mp h with h1 | h2
      · exact absurd h1 (textChunk_not_mem_toolLoop calls s)
      · rcases List.mem_flatMap.mp h2 with ⟨ev', _, hm⟩
        exact textChunk_processFollowEvent hm
  | otherEvent => simp [processMainEvent] at h

theorem textChunk_runStreamEvents {tid : String}
    {follow : String → List ToolOutput → List UpstreamEvent} {events : List UpstreamEvent}
    {s : List Char} (h : SSEEvent.textChunk s ∈ (runStreamEvents tid follow events).1) :
    s ≠ [] := by
  induction events with
  | nil => simp [runStreamEvents] at h
  | cons e rest ih =>
    simp only [runStreamEvents] at h
    rcases List.mem_append.mp h with h1 | h2
    · exact textChunk_processMainEvent h1
    · exact ih h2

theorem createThread_not_mem_processMainEvent (tid : String)
    (follow : String → List ToolOutput → List UpstreamEvent) (ev : UpstreamEvent) :
    ApiCall.createThread ∉ (processMainEvent tid follow ev).2 := by
  cases ev with
  | messageDelta content => simp [processMainEvent]
  | requiresAction runId calls =>
    rw [processMainEvent_requiresAction_snd]
    by_cases he : (toolLoop calls).2.isEmpty = true
    · rw [if_pos he]; simp
    · rw [if_neg he]; simp
  | otherEvent => simp [processMainEvent]

theorem createThread_not_mem_runStreamEvents (tid : String)
    (follow : String → List ToolOutput → List UpstreamEvent) (events : List UpstreamEvent) :
    ApiCall.createThread ∉ (runStreamEvents tid follow events).2 := by
  induction events with
  | nil => simp [runStreamEvents]
  | cons e rest ih =>
    simp only [runStreamEvents]
    intro h
    rcases List.mem_append.mp h with h1 | h2
    · exact createThread_not_mem_processMainEvent tid follow e h1
    · exact ih h2

theorem ask_endpoint_eq_none (aid : Option String) (ntid q : String)
    (follow : String → List ToolOutput → List UpstreamEvent) (events : List UpstreamEvent)
    (h : pyFalsy aid = false) :
    ask_endpoint aid ntid ⟨q, none⟩ follow events =
      (AskResponse.sse (stream_generator ntid (aid.getD "") follow events).1,
       [ApiCall.createThread, ApiCall.appendMessage ntid q]
         ++ (stream_generator ntid (aid.getD "") follow events).2) := by
  simp [ask_endpoint, ask_assistant_streaming, h]

theorem ask_endpoint_eq_some (aid : Option String) (ntid q t : String)
    (follow : String → List ToolOutput → List UpstreamEvent) (events : List UpstreamEvent)
    (h : pyFalsy aid = false) :
    ask_endpoint aid ntid ⟨q, some t⟩ follow events =
      (AskResponse.sse (stream_generator t (aid.getD "") follow events).1,
       [ApiCall.appendMessage t q] ++ (stream_generator t (aid.getD "") follow events).2) := by
  simp [ask_endpoint, ask_assistant_streaming, h]

/-- C1: Citation-marker stripping.  (1) The cleaned output contains no
substring matching `【.*?】`; (2) input without any such marker is returned
verbatim — in particular leading/trailing whitespace survives, so the
streaming path applies no additional trim; (3) a well-separated marker is
removed while the text around it is preserved verbatim; (4) the streaming
handler emits exactly the cleaned chunk, untrimmed. -/
theorem C1_citation_stripping :
    (∀ l : List Char, hasMatch (stripCitations l) = false)
    ∧ (∀ l : List Char, hasMatch l = false → stripCitations l = l)
    ∧ (∀ a inner b : List Char, '【' ∉ a → '】' ∉ inner → '\n' ∉ inner →
        stripCitations (a ++ '【' :: (inner ++ '】' :: b)) = a ++ stripCitations b)
    ∧ (∀ (chunk : List Char) (rest : List (List Char)), stripCitations chunk ≠ [] →
        processDelta (chunk :: rest) = [SSEEvent.textChunk (stripCitations chunk)]) := by
  refine ⟨hasMatch_stripCitations, stripCitations_of_hasMatch_eq_false, ?_, ?_⟩
  · intro a inner b ha hi1 hi2
    rw [stripCitations_append_of_not_mem a _ ha,
      stripCitations_open_some _ _ (findClose_marker inner b hi1 hi2)]
  · intro chunk rest h
    have he : (stripCitations chunk).isEmpty = false := by
      cases hc : stripCitations chunk with
      | nil => exact absurd hc h
      | cons x xs => rfl
    simp only [processDelta, he, Bool.false_eq_true, if_false]

/-- Witness for C1 at concrete inputs: a marker with surrounding
whitespace-bearing text is removed, a marker-free chunk (with leading and
trailing spaces) passes through unchanged, and the emitted chunk is the
cleaned text. -/
theorem C1_citation_stripping_witness :
    stripCitations (" a ".data ++ '【' :: ("cite".data ++ '】' :: " b ".data))
        = " a ".data ++ stripCitations " b ".data
    ∧ stripCitations " x ".data = " x ".data
    ∧ processDelta ["ab【cite】cd".data]
        = [SSEEvent.textChunk (stripCitations "ab【cite】cd".data)] :=
  ⟨C1_citation_stripping.2.2.1 " a ".data "cite".data " b ".data
      (by decide) (by decide) (by decide),
   C1_citation_stripping.2.1 " x ".data (by decide),
   C1_citation_stripping.2.2.2 "ab【cite】cd".data [] (by decide)⟩

/-- C10: the citation-marker removal is idempotent — cleaning a cleaned
chunk changes nothing (removal never creates a new marker). -/
theorem C10_strip_idempotent :
    ∀ l : List Char, stripCitations (stripCitations l) = stripCitations l :=
  fun l => stripCitations_of_hasMatch_eq_false (stripCitations l) (hasMatch_stripCitations l)

/-- C3: for every run of the stream generator the first emitted event is
the `thread_id` event, and no emitted `text_chunk` carries an empty string
after cleaning. -/
theorem C3_stream_first_event :
    ∀ (tid aid : String) (follow : String → List ToolOutput → List UpstreamEvent)
      (events : List UpstreamEvent),
      (stream_generator tid aid follow events).1.head? = some (SSEEvent.threadId tid)
      ∧ ∀ s : List Char,
          SSEEvent.textChunk s ∈ (stream_generator tid aid follow events).1 → s ≠ [] := by
  intro tid aid follow events
  refine ⟨rfl, ?_⟩
  intro s hs
  simp only [stream_generator, List.mem_cons] at hs
  rcases hs with h | h
  · cases h
  · exact textChunk_runStreamEvents h

/-- Witness for C3: on a run with one delta `"oi"` the membership
hypothesis holds, and the chunk is indeed non-empty. -/
theorem C3_stream_first_event_witness :
    "oi".data ≠ [] :=
  (C3_stream_first_event "t1" "asst" (fun _ _ => [])
      [UpstreamEvent.messageDelta ["oi".data]]).2 "oi".data (by decide)

/-- C2: when the request carries no `thread_id` the handler performs
exactly one `createThread` (the trace starts `createThread`, then the
message append on the new handle, then the run on the same handle);
when a `thread_id` is supplied, no `createThread` ever occurs and the
supplied handle is used for both the append and the run. -/
theorem C2_thread_creation :
    ∀ (aid : Option String) (ntid q : String)
      (follow : String → List ToolOutput → List UpstreamEvent)
      (events : List UpstreamEvent),
      pyFalsy aid = false →
      (∃ rest, (ask_endpoint aid ntid ⟨q, none⟩ follow events).2
          = [ApiCall.createThread, ApiCall.appendMessage ntid q,
             ApiCall.runStream ntid (aid.getD "")] ++ rest
          ∧ ApiCall.createThread ∉ rest)
      ∧ ∀ t : String,
          ApiCall.createThread ∉ (ask_endpoint aid ntid ⟨q, some t⟩ follow events).2
          ∧ (ask_endpoint aid ntid ⟨q, some t⟩ follow events).2.take 2
              = [ApiCall.appendMessage t q, ApiCall.runStream t (aid.getD "")] := by
  intro aid ntid q follow events h
  constructor
  · refine ⟨(runStreamEvents ntid follow events).2, ?_,
      createThread_not_mem_runStreamEvents ntid follow events⟩
    rw [ask_endpoint_eq_none aid ntid q follow events h]
    simp [stream_generator]
  · intro t
    constructor
    · rw [ask_endpoint_eq_some aid ntid q t follow events h]
      simp only [stream_generator, List.cons_append, List.nil_append, List.mem_cons]
      intro hc
      rcases hc with h1 | h1 | h1
      · cases h1
      · cases h1
      · exact createThread_not_mem_runStreamEvents t follow events h1
    · rw [ask_endpoint_eq_some aid ntid q t follow events h]
      simp [stream_generator]

/-- Witness for C2: a request reusing thread `"th0"` never triggers
`createThread`. -/
theorem C2_thread_creation_witness :
    ApiCall.createThread
      ∉ (ask_endpoint (some "asst") "th1" ⟨"oi", some "th0"⟩ (fun _ _ => []) []).2 :=
  ((C2_thread_creation (some "asst") "th1" "oi" (fun _ _ => []) [] (by decide)).2 "th0").1

/-- C5 is refuted at a concrete input: a `requires_action` carrying one
tool call named `"openLink"` produces no `tool_call` event, submits no
outputs, and opens no resumed stream — even though the resumed stream
would have yielded a delta — contradicting "any tool/function call". -/
theorem C5_tool_call_counterexample :
    stream_generator "t" "asst"
        (fun _ _ => [UpstreamEvent.messageDelta ["resumed".data]])
        [UpstreamEvent.requiresAction "r" [⟨"call1", ⟨"openLink", "url"⟩⟩]]
      = ([SSEEvent.threadId "t"], [ApiCall.runStream "t" "asst"]) := by decide

/-- C5 (amended): whenever the `requires_action` batch contains at least
one call named `"navigateToSection"`, the adapter emits a `tool_call`
event for each such call (with its arguments), synthesizes the success
acknowledgments, submits them upstream in one `submit_tool_outputs` call,
and relays the text deltas of the resumed stream. -/
theorem C5_tool_call_amended :
    ∀ (tid aid rid : String) (calls : List ToolCall)
      (follow : String → List ToolOutput → List UpstreamEvent),
      navCalls calls ≠ [] →
      stream_generator tid aid follow [UpstreamEvent.requiresAction rid calls]
        = (SSEEvent.threadId tid ::
             ((navCalls calls).map
                 (fun c => SSEEvent.toolCall "navigateToSection" c.function.arguments)
               ++ (follow rid (navOutputs calls)).flatMap processFollowEvent),
           [ApiCall.runStream tid aid,
            ApiCall.submitToolOutputs tid rid (navOutputs calls)]) := by
  intro tid aid rid calls follow h
  have hev : (toolLoop calls).1 =
      (navCalls calls).map (fun c => SSEEvent.toolCall "navigateToSection" c.function.arguments) := by
    rw [toolLoop_eq]
  have houts : (toolLoop calls).2 = navOutputs calls := by rw [toolLoop_eq]
  have hne : navOutputs calls ≠ [] := by
    rw [navOutputs]
    cases hnc : navCalls calls with
    | nil => exact absurd hnc h
    | cons c l => simp
  simp [stream_generator, runStreamEvents, processMainEvent, hne, hev, houts]

/-- Witness for C5 (amended): one `navigateToSection` call with arguments
`"sec"`, the resumed stream yielding one delta. -/
theorem C5_tool_call_amended_witness :
    stream_generator "t" "asst" (fun _ _ => [UpstreamEvent.messageDelta ["ok".data]])
        [UpstreamEvent.requiresAction "r" [⟨"c1", ⟨"navigateToSection", "sec"⟩⟩]]
      = (SSEEvent.threadId "t" ::
           ((navCalls [⟨"c1", ⟨"navigateToSection", "sec"⟩⟩]).map
               (fun c => SSEEvent.toolCall "navigateToSection" c.function.arguments)
             ++ ((fun _ _ => [UpstreamEvent.messageDelta ["ok".data]]) "r"
                   (navOutputs [⟨"c1", ⟨"navigateToSection", "sec"⟩⟩])).flatMap
                 processFollowEvent),
         [ApiCall.runStream "t" "asst",
          ApiCall.submitToolOutputs "t" "r"
            (navOutputs [⟨"c1", ⟨"navigateToSection", "sec"⟩⟩])]) :=
  C5_tool_call_amended "t" "asst" "r" [⟨"c1", ⟨"navigateToSection", "sec"⟩⟩]
    (fun _ _ => [UpstreamEvent.messageDelta ["ok".data]]) (by decide)

/-- C9: tool calls not named `"navigateToSection"` are silently ignored —
the loop's result only depends on the `navigateToSection` calls — and a
batch with none of them emits no `tool_call` event, submits nothing
upstream, and opens no resumed stream. -/
theorem C9_non_navigate_ignored :
    ∀ (tid aid rid : String) (calls : List ToolCall)
      (follow : String → List ToolOutput → List UpstreamEvent),
      toolLoop calls = toolLoop (navCalls calls)
      ∧ ((∀ c ∈ calls, c.function.name ≠ "navigateToSection") →
          stream_generator tid aid follow [UpstreamEvent.requiresAction rid calls]
            = ([SSEEvent.threadId tid], [ApiCall.runStream tid aid])) := by
  intro tid aid rid calls follow
  constructor
  · rw [toolLoop_eq, toolLoop_eq]
    have hidem : navCalls (navCalls calls) = navCalls calls := by
      simp [navCalls, List.filter_filter]
    rw [navOutputs, navOutputs, hidem]
  · intro hno
    have hnc : navCalls calls = [] := by
      rw [navCalls, List.filter_eq_nil_iff]
      intro c hc
      simpa using hno c hc
    have houts : (toolLoop calls).2 = [] := by
      rw [toolLoop_eq]; simp [navOutputs, hnc]
    have hevs : (toolLoop calls).1 = [] := by
      rw [toolLoop_eq]; simp [hnc]
    simp [stream_generator, runStreamEvents, processMainEvent, houts, hevs]

/-- Witness for C9: a batch holding one call named `"otherTool"` yields
only the `thread_id` event and the run-stream call. -/
theorem C9_non_navigate_ignored_witness :
    stream_generator "t" "asst" (fun _ _ => [UpstreamEvent.messageDelta ["x".data]])
        [UpstreamEvent.requiresAction "r" [⟨"c1", ⟨"otherTool", "v"⟩⟩]]
      = ([SSEEvent.threadId "t"], [ApiCall.runStream "t" "asst"]) :=
  (C9_non_navigate_ignored "t" "asst" "r" [⟨"c1", ⟨"otherTool", "v"⟩⟩]
    (fun _ _ => [UpstreamEvent.messageDelta ["x".data]])).2 (by decide)

/-- C4 is refuted at a concrete input: with the API key set but the
assistant identifier absent, startup succeeds — the process does not
refuse to start even though a mandatory value is missing. -/
theorem C4_startup_counterexample :
    (startup ⟨some "sk-test", none, none⟩ (fun _ => none)).isSome = true := by decide

/-- C4 (amended): both environment values are read once at process start
into the process-wide configuration, but startup fails exactly when the
API key is absent or empty; a missing assistant identifier does not
prevent startup (it instead fails each `/ask` request, see C8). -/
theorem C4_startup_amended :
    ∀ (env : Env) (parse : String → Option (List (String × String))),
      (startup env parse = none ↔ pyFalsy env.openai_api_key = true)
      ∧ ∀ cfg : Config, startup env parse = some cfg →
          cfg.assistant_id = env.assistant_id
          ∧ cfg.openai_api_key = env.openai_api_key.getD ""
          ∧ cfg.equipe_data = load_equipe_data env.equipe_file parse := by
  intro env parse
  constructor
  · constructor
    · intro h
      by_cases hp : pyFalsy env.openai_api_key = true
      · exact hp
      · simp [startup, hp] at h
    · intro h
      simp [startup, h]
  · intro cfg h
    by_cases hp : pyFalsy env.openai_api_key = true
    · simp [startup, hp] at h
    · simp [startup, hp] at h
      subst h
      exact ⟨rfl, rfl, rfl⟩

/-- Witness for C4 (amended) at a concrete environment: the startup
hypothesis is discharged by computation. -/
theorem C4_startup_amended_witness :
    (⟨"sk", some "asst", []⟩ : Config).assistant_id
        = (⟨some "sk", some "asst", none⟩ : Env).assistant_id
    ∧ (⟨"sk", some "asst", []⟩ : Config).openai_api_key
        = ((⟨some "sk", some "asst", none⟩ : Env).openai_api_key).getD ""
    ∧ (⟨"sk", some "asst", []⟩ : Config).equipe_data
        = load_equipe_data (⟨some "sk", some "asst", none⟩ : Env).equipe_file
            (fun _ => none) :=
  (C4_startup_amended ⟨some "sk", some "asst", none⟩ (fun _ => none)).2
    ⟨"sk", some "asst", []⟩ (by decide)

/-- C8: with `ASSISTANT_ID` unset (or empty), every `/ask` call fails
with HTTP 400 before any upstream call — the trace is empty, so no
conversation is created and no message appended — while the process
itself starts whenever the API key is present. -/
theorem C8_missing_assistant_id :
    ∀ (env : Env) (parse : String → Option (List (String × String)))
      (ntid : String) (req : AskRequest)
      (follow : String → List ToolOutput → List UpstreamEvent)
      (events : List UpstreamEvent),
      pyFalsy env.assistant_id = true →
      ask_assistant_streaming env.assistant_id ntid req
          = (AskOutcome.httpError 400 askAidMsg, [])
      ∧ ask_endpoint env.assistant_id ntid req follow events
          = (AskResponse.httpError 400 askAidMsg, [])
      ∧ (pyFalsy env.openai_api_key = false → (startup env parse).isSome = true) := by
  intro env parse ntid req follow events h
  refine ⟨?_, ?_, ?_⟩
  · simp [ask_assistant_streaming, h]
  · simp [ask_endpoint, ask_assistant_streaming, h]
  · intro hk
    simp [startup, hk]

/-- Witness for C8: `ASSISTANT_ID` unset, API key present. -/
theorem C8_missing_assistant_id_witness :
    ask_assistant_streaming none "t" ⟨"oi", none⟩
        = (AskOutcome.httpError 400 askAidMsg, []) :=
  (C8_missing_assistant_id ⟨some "sk", none, none⟩ (fun _ => none) "t" ⟨"oi", none⟩
    (fun _ _ => []) [] (by decide)).1

/-- C6: with an empty (missing/unparseable) dataset, every
`/consulta-atlas` call returns HTTP 400 with an empty upstream trace —
the completion call is never attempted; and a missing or unparseable
dataset file does not prevent startup, it only leaves the loaded dataset
empty. -/
theorem C6_local_dataset_errors :
    (∀ (complete : String → Except String String) (pergunta : String),
        consulta_atlas_local [] complete pergunta
          = (ConsultaResponse.httpError 400 equipeMissingMsg, []))
    ∧ ∀ (env : Env) (parse : String → Option (List (String × String))),
        pyFalsy env.openai_api_key = false →
        ∃ cfg : Config, startup env parse = some cfg
          ∧ (env.equipe_file = none → cfg.equipe_data = [])
          ∧ ∀ raw : String, env.equipe_file = some raw → parse raw = none →
              cfg.equipe_data = [] := by
  constructor
  · intro complete pergunta
    simp [consulta_atlas_local, gerar_resposta]
  · intro env parse hk
    refine ⟨⟨env.openai_api_key.getD "", env.assistant_id,
        load_equipe_data env.equipe_file parse⟩, ?_, ?_, ?_⟩
    · simp [startup, hk]
    · intro hf
      simp [load_equipe_data, hf]
    · intro raw hf hp
      simp [load_equipe_data, hf, hp]

/-- Witness for C6: empty dataset and a startup whose dataset file is
missing. -/
theorem C6_local_dataset_errors_witness :
    consulta_atlas_local [] (fun _ => Except.ok "resp") "quem"
        = (ConsultaResponse.httpError 400 equipeMissingMsg, [])
    ∧ ∃ cfg : Config,
        startup ⟨some "sk", none, none⟩ (fun _ => none) = some cfg
        ∧ ((⟨some "sk", none, none⟩ : Env).equipe_file = none → cfg.equipe_data = [])
        ∧ ∀ raw : String, (⟨some "sk", none, none⟩ : Env).equipe_file = some raw →
            (fun _ => (none : Option (List (String × String)))) raw = none →
            cfg.equipe_data = [] :=
  ⟨C6_local_dataset_errors.1 (fun _ => Except.ok "resp") "quem",
   C6_local_dataset_errors.2 ⟨some "sk", none, none⟩ (fun _ => none) (by decide)⟩

/-- C7: every successful `/consulta-atlas` response carries
`mode = "local-json"`, and the endpoint's upstream trace consists only of
chat-completion calls — it never creates, reads, or mutates a
conversation handle. -/
theorem C7_local_mode_shape :
    ∀ (data : List (String × String)) (complete : String → Except String String)
      (pergunta : String),
      (∀ a m : String,
          (consulta_atlas_local data complete pergunta).1 = ConsultaResponse.ok a m →
          m = "local-json")
      ∧ ∀ c ∈ (consulta_atlas_local data complete pergunta).2,
          ∃ p : String, c = ApiCall.chatCompletion p := by
  intro data complete pergunta
  by_cases hd : data.isEmpty = true
  · constructor
    · intro a m hm
      simp [consulta_atlas_local, gerar_resposta, hd] at hm
    · intro c hc
      simp [consulta_atlas_local, gerar_resposta, hd] at hc
  · cases hc : complete (contexto data pergunta) with
    | ok ans =>
      constructor
      · intro a m hm
        simp [consulta_atlas_local, gerar_resposta, hd, hc] at hm
        exact hm.2.symm
      · intro c hmem
        simp [consulta_atlas_local, gerar_resposta, hd, hc] at hmem
        exact ⟨contexto data pergunta, hmem⟩
    | error e =>
      constructor
      · intro a m hm
        simp [consulta_atlas_local, gerar_resposta, hd, hc] at hm
      · intro c hmem
        simp [consulta_atlas_local, gerar_resposta, hd, hc] at hmem
        exact ⟨contexto data pergunta, hmem⟩

/-- Witness for C7: a one-member dataset with a succeeding completion —
the mode is `"local-json"` and the single trace entry is the completion
call. -/
theorem C7_local_mode_shape_witness :
    ("local-json" : String) = "local-json"
    ∧ ∃ p : String,
        ApiCall.chatCompletion (contexto [("nome", "Ana")] "q") = ApiCall.chatCompletion p :=
  ⟨(C7_local_mode_shape [("nome", "Ana")] (fun _ => Except.ok "resp") "q").1
      "resp" "local-json" (by decide),
   (C7_local_mode_shape [("nome", "Ana")] (fun _ => Except.ok "resp") "q").2
      (ApiCall.chatCompletion (contexto [("nome", "Ana")] "q"))
      (by simp [consulta_atlas_local, gerar_resposta])⟩
